import Mathlib

/-!
Verification of the Altis commerce core against its natural-language
specification.  Each Rust function named in a claim is embedded as an
executable Lean definition; machine integers (`i32`, `i64`) are modelled as
unbounded `Int` (no claim here exercises overflow), `f64` arithmetic is
modelled over the exact rationals `ℚ`, timestamps and `Instant`s as integer
clock values, and the Redis availability cache / SQL tables as association
lists keyed by identifier.  Fallible Rust functions returning `Result`
become `Except`-valued definitions.  Fields a claimed function never reads
(UUIDs, opaque JSON metadata, audit timestamps) are omitted from the
embedded structures.
-/

namespace Altis

/-! ## altis-catalog/src/pricing.rs -/

/-- Embeds `PricingConfig` (pricing.rs, lines 48-63).  `f64` fields are
modelled as `ℚ`; the `HashMap<String, f64>` of segment multipliers as an
association list with distinct keys. -/
structure PricingConfig where
  min_adjustment_cents : Int
  max_multiplier : ℚ
  min_multiplier : ℚ
  enable_continuous : Bool
  segment_multipliers : List (String × ℚ)
deriving Repr, DecidableEq

/-- Embeds `PricingConfig::default` (pricing.rs, lines 65-82). -/
def PricingConfig.default : PricingConfig where
  min_adjustment_cents := 1
  max_multiplier := 3
  min_multiplier := 1/2
  enable_continuous := true
  segment_multipliers :=
    [("premium", 12/10), ("corporate", 11/10), ("economy", 1), ("leisure", 95/100)]

/-- Embeds the behaviourally relevant fields of `PricingContext`
(pricing.rs, lines 5-24): the timestamp and opaque metadata are never read
by `apply_continuous_adjustment` and are omitted. -/
structure PricingContext where
  is_bundled : Bool
  user_segment : Option String
  time_multiplier : Option ℚ
  demand_multiplier : Option ℚ
deriving Repr, DecidableEq

/-- Embeds `PricingEngine::calculate_demand_multiplier` (pricing.rs, lines
90-102): guard on zero capacity, quadratic utilisation curve, then clamp of
the demand factor to the configured limits
(`multiplier.max(min).min(max)`). -/
def calculateDemandMultiplier (cfg : PricingConfig)
    (available_inventory total_capacity : Int) : ℚ :=
  if total_capacity = 0 then 1
  else
    let utilization : ℚ := 1 - (available_inventory : ℚ) / (total_capacity : ℚ)
    let multiplier : ℚ := 1 + utilization * utilization * 2
    min (max multiplier cfg.min_multiplier) cfg.max_multiplier

/-- Rust's `as i32` cast of a (finite, in-range) `f64` truncates toward
zero: floor for non-negative values, ceiling (written `-⌊-q⌋`) for
negative ones. -/
def ratTruncToInt (q : ℚ) : Int := if q < 0 then -⌊-q⌋ else ⌊q⌋

/-- Embeds `PricingEngine::apply_continuous_adjustment` (pricing.rs, lines
122-151) literally: demand multiplier (default 1.0), optionally times the
time multiplier, optionally times the configured segment multiplier; the
product applied to the base price and cast to `i32`; then the
remainder-based rounding step using Rust's truncating `%` and `/`. -/
def applyContinuousAdjustment (cfg : PricingConfig) (base_price : Int)
    (context : PricingContext) : Int :=
  if !cfg.enable_continuous then base_price
  else
    let m1 : ℚ := context.demand_multiplier.getD 1
    let m2 : ℚ :=
      match context.time_multiplier with
      | some tm => m1 * tm
      | none => m1
    let m3 : ℚ :=
      match context.user_segment with
      | some segment =>
        match cfg.segment_multipliers.lookup segment with
        | some sm => m2 * sm
        | none => m2
      | none => m2
    let adjusted : Int := ratTruncToInt ((base_price : ℚ) * m3)
    let remainder : Int := Int.tmod adjusted cfg.min_adjustment_cents
    if remainder ≥ Int.tdiv cfg.min_adjustment_cents 2 then
      adjusted + (cfg.min_adjustment_cents - remainder)
    else
      adjusted - remainder

/-! ## altis-catalog/src/inventory.rs -/

/-- Embeds `InventoryItem` (inventory.rs, lines 6-12). -/
structure InventoryItem where
  product_id : Nat
  available_quantity : Int
  total_capacity : Int
  reserved_quantity : Int
deriving Repr, DecidableEq

/-- Embeds `InventoryManager` (inventory.rs, lines 14-17); the `HashMap`
keyed by product id becomes an association list. -/
structure InventoryManager where
  inventory : List (Nat × InventoryItem)
deriving Repr, DecidableEq

/-- Embeds `InventoryManager::get_utilization` (inventory.rs, lines
88-96): the zero-capacity guard returns `0.0`, otherwise
`1 - available / capacity`. -/
def InventoryManager.getUtilization (m : InventoryManager) (product_id : Nat) :
    Option ℚ :=
  (m.inventory.lookup product_id).map fun item =>
    if item.total_capacity = 0 then 0
    else 1 - (item.available_quantity : ℚ) / (item.total_capacity : ℚ)

/-! ## altis-order/src/models.rs -/

/-- Embeds `OrderStatus` (altis-order models.rs, lines 8-16). -/
inductive OrderStatus
  | proposed
  | locked
  | paid
  | fulfilled
  | archived
  | expired
  | cancelled
deriving Repr, DecidableEq

/-- Embeds `OrderItemStatus` (altis-order models.rs, lines 21-26). -/
inductive OrderItemStatus
  | active
  | refunded
  | cancelled
  | modified
deriving Repr, DecidableEq

/-- Embeds `OrderItem` (altis-order models.rs, lines 90-101); UUIDs become
`Nat` identifiers, metadata is omitted. -/
structure OrderItem where
  id : Nat
  product_id : Option Nat
  product_type : String
  price_nuc : Int
  quantity : Int
  status : OrderItemStatus
deriving Repr, DecidableEq

/-- Embeds the behaviourally relevant fields of `Order` (altis-order
models.rs, lines 30-44). -/
structure Order where
  id : Nat
  items : List OrderItem
  total_nuc : Int
  status : OrderStatus
deriving Repr, DecidableEq

/-- Embeds `Order::new` (models.rs, lines 47-64): empty items, zero total,
`PROPOSED`. -/
def Order.new (id : Nat) : Order := ⟨id, [], 0, .proposed⟩

/-- Embeds `Order::add_item` (models.rs, lines 67-71): the stored total is
increased by `item.price_nuc` alone — the quantity field is not
multiplied in — and the item is appended. -/
def Order.addItem (o : Order) (item : OrderItem) : Order :=
  { o with total_nuc := o.total_nuc + item.price_nuc, items := o.items ++ [item] }

/-- Embeds `Order::calculate_active_total` (models.rs, lines 80-85): the
sum of `price_nuc` over items whose status is ACTIVE (again without the
quantity factor). -/
def Order.calculateActiveTotal (o : Order) : Int :=
  ((o.items.filter fun item => item.status == OrderItemStatus.active).map
    fun item => item.price_nuc).sum

/-- Sum of `price_nuc × quantity` over ACTIVE items — this definition
follows the SPEC's words ("total_nuc == Σ active items' price × quantity")
rather than the source, for comparison against
`Order.calculateActiveTotal`. -/
def specActiveTotalPriceTimesQty (o : Order) : Int :=
  ((o.items.filter fun item => item.status == OrderItemStatus.active).map
    fun item => item.price_nuc * item.quantity).sum

/-! ## altis-order/src/changes.rs -/

/-- Embeds `ChangeError` (changes.rs, lines 60-73). -/
inductive ChangeError
  | orderNotModifiable
  | itemNotFound
  | itemNotActive
deriving Repr, DecidableEq

/-- Embeds `ChangeHandler::is_modifiable` (changes.rs, lines 54-57). -/
def Order.isModifiable (o : Order) : Bool :=
  match o.status with
  | .proposed | .locked | .paid => true
  | _ => false

/-- Embeds `ChangeHandler::add_item` (changes.rs, lines 9-17). -/
def ChangeHandler.addItem (o : Order) (new_item : OrderItem) :
    Except ChangeError Order :=
  if !o.isModifiable then .error .orderNotModifiable
  else .ok (o.addItem new_item)

/-- In-place mutation of the first list element satisfying `p`, as Rust's
`iter_mut().find(p)` followed by a field assignment. -/
def updateFirst {α : Type} (p : α → Bool) (f : α → α) : List α → List α
  | [] => []
  | x :: xs => if p x then f x :: xs else x :: updateFirst p f xs

/-- Embeds `ChangeHandler::refund_item` (changes.rs, lines 20-36): find the
item, require it ACTIVE, flip it to REFUNDED, then recompute the stored
total as `calculate_active_total`. -/
def ChangeHandler.refundItem (o : Order) (item_id : Nat) :
    Except ChangeError Order :=
  match o.items.find? (fun i => i.id == item_id) with
  | none => .error .itemNotFound
  | some item =>
    if item.status != OrderItemStatus.active then .error .itemNotActive
    else
      let o1 : Order :=
        { o with
          items := updateFirst (fun i => i.id == item_id)
            (fun i => { i with status := .refunded }) o.items }
      .ok { o1 with total_nuc := o1.calculateActiveTotal }

/-- Embeds `ChangeHandler::change_flight` (changes.rs, lines 39-51) at the
level of the mutated `&mut Order`: if the refund succeeds but the add is
rejected, the refund mutation is already applied (just as in the source),
so the partially mutated order is returned alongside the error. -/
def ChangeHandler.changeFlightRun (o : Order) (old_flight_item_id : Nat)
    (new_flight_item : OrderItem) : Order × Option ChangeError :=
  match ChangeHandler.refundItem o old_flight_item_id with
  | .error e => (o, some e)
  | .ok o1 =>
    match ChangeHandler.addItem o1 new_flight_item with
    | .error e => (o1, some e)
    | .ok o2 => (o2, none)

/-- The modification operations named by the spec's order-total
invariant. -/
inductive OrderOp
  | add (item : OrderItem)
  | refund (item_id : Nat)
  | changeFlight (old_id : Nat) (new_item : OrderItem)
deriving Repr, DecidableEq

/-- Applies one operation to an order; a rejected operation leaves the
order exactly as the source leaves the `&mut Order`. -/
def applyOp (o : Order) (op : OrderOp) : Order :=
  match op with
  | .add item => o.addItem item
  | .refund item_id =>
    match ChangeHandler.refundItem o item_id with
    | .ok o1 => o1
    | .error _ => o
  | .changeFlight old_id new_item =>
    (ChangeHandler.changeFlightRun o old_id new_item).1

/-- Applies a sequence of operations left to right. -/
def applyOps (o : Order) (ops : List OrderOp) : Order := ops.foldl applyOp o

/-- Items introduced by an operation carry status ACTIVE, as
`OrderItem::new` (models.rs, line 123) always produces. -/
def OrderOp.freshItem : OrderOp → Bool
  | .add item => item.status == OrderItemStatus.active
  | .refund _ => true
  | .changeFlight _ new_item => new_item.status == OrderItemStatus.active

/-- The stored-total invariant maintained by the code: `total_nuc` equals
the sum of ACTIVE items' `price_nuc`. -/
def totalInvariant (o : Order) : Prop := o.total_nuc = o.calculateActiveTotal

/-! ## altis-order/src/manager.rs -/

/-- The five transition requests `OrderManager` exposes (manager.rs:
`lock_order`, `mark_paid`, `mark_fulfilled`, `cancel_order`,
`archive_order`). -/
inductive OrderEvent
  | lock
  | markPaid
  | markFulfilled
  | cancel
  | archive
deriving Repr, DecidableEq

/-- Rust's `format!("{:?}", status)` used in `InvalidTransition.from`. -/
def OrderStatus.debugName : OrderStatus → String
  | .proposed => "Proposed"
  | .locked => "Locked"
  | .paid => "Paid"
  | .fulfilled => "Fulfilled"
  | .archived => "Archived"
  | .expired => "Expired"
  | .cancelled => "Cancelled"

/-- The literal `to` string each manager method writes into
`InvalidTransition` (manager.rs, lines 35-107). -/
def OrderEvent.targetName : OrderEvent → String
  | .lock => "LOCKED"
  | .markPaid => "PAID"
  | .markFulfilled => "FULFILLED"
  | .cancel => "CANCELLED"
  | .archive => "ARCHIVED"

/-- The state each manager method moves the order to on success. -/
def OrderEvent.target : OrderEvent → OrderStatus
  | .lock => .locked
  | .markPaid => .paid
  | .markFulfilled => .fulfilled
  | .cancel => .cancelled
  | .archive => .archived

/-- Embeds the status-transition logic of `OrderManager` (manager.rs,
lines 35-107) on an order's status: `lock_order` requires PROPOSED,
`mark_paid` LOCKED, `mark_fulfilled` PAID, `archive_order` FULFILLED, and
`cancel_order` rejects only FULFILLED and ARCHIVED; every rejection is an
`InvalidTransition` carrying the debug name of the current status and the
upper-case name of the requested target. -/
def managerStep (s : OrderStatus) (e : OrderEvent) :
    Except (String × String) OrderStatus :=
  match e with
  | .lock =>
    if s ≠ .proposed then .error (s.debugName, "LOCKED") else .ok .locked
  | .markPaid =>
    if s ≠ .locked then .error (s.debugName, "PAID") else .ok .paid
  | .markFulfilled =>
    if s ≠ .paid then .error (s.debugName, "FULFILLED") else .ok .fulfilled
  | .cancel =>
    if s = .fulfilled ∨ s = .archived then .error (s.debugName, "CANCELLED")
    else .ok .cancelled
  | .archive =>
    if s ≠ .fulfilled then .error (s.debugName, "ARCHIVED") else .ok .archived

/-- The transition-acceptance condition `managerStep` actually implements
(note: `cancel` is accepted from CANCELLED itself). -/
def managerAccepts (s : OrderStatus) (e : OrderEvent) : Prop :=
  match e with
  | .lock => s = .proposed
  | .markPaid => s = .locked
  | .markFulfilled => s = .paid
  | .cancel => s ≠ .fulfilled ∧ s ≠ .archived
  | .archive => s = .fulfilled

instance (s : OrderStatus) (e : OrderEvent) : Decidable (managerAccepts s e) := by
  unfold managerAccepts
  cases e <;> infer_instance

/-! ## Redis availability cache (altis-store/src/redis_repo.rs) -/

/-- The per-flight availability keys `flight:{id}:availability`, as an
association list from flight/product id to the cached `i32` counter.  An
absent key models a cache miss. -/
structure Cache where
  avail : List (Nat × Int)
deriving Repr, DecidableEq

/-- Embeds `get_flight_availability` (redis_repo.rs, lines 65-69). -/
def Cache.get (c : Cache) (flight_id : Nat) : Option Int :=
  c.avail.lookup flight_id

/-- Embeds `set_flight_availability` (redis_repo.rs, lines 71-75): SET
overwrites an existing key or creates it. -/
def Cache.set (c : Cache) (flight_id : Nat) (count : Int) : Cache :=
  if (c.avail.lookup flight_id).isSome then
    ⟨c.avail.map fun p => if p.1 == flight_id then (p.1, count) else p⟩
  else
    ⟨c.avail ++ [(flight_id, count)]⟩

/-- Embeds `decr_flight_availability` (redis_repo.rs, lines 49-63): the
Lua script atomically decrements an existing key and returns the new
value, or returns nil on a missing key without seeding it. -/
def Cache.decr (c : Cache) (flight_id : Nat) : Option Int × Cache :=
  match c.avail.lookup flight_id with
  | none => (none, c)
  | some v => (some (v - 1), c.set flight_id (v - 1))

/-! ## altis-offer/src/models.rs -/

/-- Embeds `OfferStatus` (altis-offer models.rs, lines 8-13). -/
inductive OfferStatus
  | active
  | expired
  | accepted
  | cancelled
deriving Repr, DecidableEq

/-- Embeds `OfferItem` (altis-offer models.rs, lines 69-79). -/
structure OfferItem where
  id : Nat
  product_id : Option Nat
  product_type : String
  price_nuc : Int
  quantity : Int
deriving Repr, DecidableEq

/-- Embeds the behaviourally relevant fields of `Offer` (altis-offer
models.rs, lines 17-29); `expires_at` is an integer timestamp. -/
structure Offer where
  id : Nat
  items : List OfferItem
  total_nuc : Int
  status : OfferStatus
  expires_at : Int
deriving Repr, DecidableEq

/-- Embeds `Offer::add_item` (altis-offer models.rs, lines 51-54): as for
orders, the total grows by `price_nuc` alone. -/
def Offer.addItem (o : Offer) (item : OfferItem) : Offer :=
  { o with total_nuc := o.total_nuc + item.price_nuc, items := o.items ++ [item] }

/-- Embeds `Offer::is_expired` (altis-offer models.rs, lines 57-59):
`Utc::now() > expires_at`, a strict comparison. -/
def Offer.isExpired (o : Offer) (now : Int) : Bool := now > o.expires_at

/-- Embeds `Offer::is_active` (altis-offer models.rs, lines 62-64). -/
def Offer.isActive (o : Offer) (now : Int) : Bool :=
  o.status == OfferStatus.active && !(o.isExpired now)

deriving instance DecidableEq for Except

/-! ## altis-api/src/offers.rs — accept_offer -/

/-- Result of `accept_offer` (offers.rs, lines 208-298): the HTTP
response (`.error code` or `.ok offerId`), the availability cache after
the handler returns, and whether `create_order` was reached. -/
structure AcceptResult where
  response : Except Nat Nat
  cache : Cache
  orderCreated : Bool
deriving Repr, DecidableEq

/-- Embeds the hard-hold loop of `accept_offer` (offers.rs, lines
252-268): for each Flight item with a product id, atomically decrement the
cached availability; when a decrement returns a value below zero, set THAT
key to 0 and fail with conflict — previously decremented flights are left
as they are.  A cache miss (`Ok(None)`) falls through and the loop
continues. -/
def reserveFlights (items : List OfferItem) (c : Cache) : Except Cache Cache :=
  match items with
  | [] => .ok c
  | item :: rest =>
    if item.product_type == "Flight" then
      match item.product_id with
      | some pid =>
        match c.decr pid with
        | (some remaining, c1) =>
          if remaining < 0 then .error (c1.set pid 0)
          else reserveFlights rest c1
        | (none, c1) => reserveFlights rest c1
      | none => reserveFlights rest c
    else reserveFlights rest c

/-- Embeds `accept_offer` (offers.rs, lines 208-298): the only gate before
inventory reservation and order creation is `offer.is_expired()` — the
offer's status field is not consulted.  On conflict the handler returns
409 with the cache as the loop left it; otherwise the order is created. -/
def acceptOffer (now : Int) (offer : Offer) (c : Cache) : AcceptResult :=
  if offer.isExpired now then ⟨.error 410, c, false⟩
  else
    match reserveFlights offer.items c with
    | .error c1 => ⟨.error 409, c1, false⟩
    | .ok c1 => ⟨.ok offer.id, c1, true⟩

/-! ## altis-offer/src/expiry.rs -/

/-- Embeds `ExpiryManager` (expiry.rs, lines 7-9): the offer store keyed
by offer id. -/
structure ExpiryManager where
  offers : List (Nat × Offer)
deriving Repr, DecidableEq

/-- Embeds `ExpiryManager::cleanup_expired` (expiry.rs, lines 42-55): the
`retain` call DELETES every offer whose status is ACTIVE and whose
`expires_at ≤ now`, keeping all others untouched, and returns how many
were removed. -/
def ExpiryManager.cleanupExpired (m : ExpiryManager) (now : Int) :
    Nat × ExpiryManager :=
  let kept := m.offers.filter fun p =>
    !(p.2.expires_at ≤ now && p.2.status == OfferStatus.active)
  (m.offers.length - kept.length, ⟨kept⟩)

/-- Embeds `ExpiryManager::get_offer` (expiry.rs, lines 24-26): the lookup
is filtered through `is_active`. -/
def ExpiryManager.getOffer (m : ExpiryManager) (now : Int) (offer_id : Nat) :
    Option Offer :=
  (m.offers.lookup offer_id).filter fun o => o.isActive now

/-! ## altis-api/src/orders.rs — pay_order and cancel_order -/

/-- Embeds `PaymentStatus` (altis-core/src/payment.rs). -/
inductive PaymentStatus
  | requiresPaymentMethod
  | requiresAction
  | processing
  | succeeded
  | canceled
  | failed
deriving Repr, DecidableEq

/-- The fields of the API-level order representation (`OrderResponse`,
orders.rs, lines 22-37) that `pay_order` and `cancel_order` read; status
is the stored string. -/
structure ApiOrderItem where
  id : Nat
  product_id : Option Nat
  product_type : String
  price_nuc : Int
deriving Repr, DecidableEq

/-- API-level order record as read back from the store. -/
structure ApiOrder where
  id : Nat
  status : String
  items : List ApiOrderItem
  total_nuc : Int
  expires_at : Option Int
deriving Repr, DecidableEq

/-- Result of `pay_order` (orders.rs, lines 140-237): HTTP outcome, the
order status as last written to the store, the availability cache, and
whether fulfillment rows were generated. -/
structure PayResult where
  response : Except Nat Unit
  storedStatus : String
  cache : Cache
  fulfillmentsCreated : Bool
deriving Repr, DecidableEq

/-- Embeds the synchronous `pay_order` flow (orders.rs, lines 140-237):
reject expired orders with 410; write PAYMENT_PENDING; invoke the
orchestrator; SUCCEEDED writes PAID and creates fulfillments, PROCESSING
returns 200 leaving PAYMENT_PENDING, an orchestrator error maps to 500,
and every other payment status (FAILED, CANCELED, REQUIRES_ACTION, ...)
returns 402 — leaving the stored status at PAYMENT_PENDING and never
touching the availability cache. -/
def payOrder (now : Int) (order : ApiOrder) (outcome : Except Unit PaymentStatus)
    (c : Cache) : PayResult :=
  let isPastExpiry : Bool :=
    match order.expires_at with
    | some t => now > t
    | none => false
  if isPastExpiry then ⟨.error 410, order.status, c, false⟩
  else
    match outcome with
    | .error _ => ⟨.error 500, "PAYMENT_PENDING", c, false⟩
    | .ok ps =>
      if ps = PaymentStatus.succeeded then ⟨.ok (), "PAID", c, true⟩
      else if ps = PaymentStatus.processing then
        ⟨.ok (), "PAYMENT_PENDING", c, false⟩
      else ⟨.error 402, "PAYMENT_PENDING", c, false⟩

/-- Embeds the inventory-release loop shared by `cancel_order`
(orders.rs, lines 345-356) and the failure branch of the Stripe webhook
(webhooks.rs, lines 57-71): for every Flight item, read the cached
availability (defaulting to 0) and SET it one higher. -/
def releaseFlights (items : List ApiOrderItem) (c : Cache) : Cache :=
  items.foldl
    (fun acc item =>
      if item.product_type == "Flight" then
        match item.product_id with
        | some pid => acc.set pid ((acc.get pid).getD 0 + 1)
        | none => acc
      else acc)
    c

/-- Embeds `cancel_order` (orders.rs, lines 325-369): an order already in
CANCELLED returns 204 immediately — success, with no state change and no
audit entry; otherwise the status is set to CANCELLED and flight inventory
is released.  The result is (HTTP status, stored order, cache). -/
def apiCancelOrder (order : ApiOrder) (c : Cache) : Nat × ApiOrder × Cache :=
  if order.status == "CANCELLED" then (204, order, c)
  else
    (204, { order with status := "CANCELLED" }, releaseFlights order.items c)

/-! ## Fulfillment consumption (altis-store/src/order_repo.rs and
altis-order/src/fulfillment.rs) -/

/-- A row of the `fulfillment` table as touched by `consume_fulfillment`
(order_repo.rs, lines 446-494). -/
structure FulfillmentRow where
  barcode : String
  order_id : Nat
  order_item_id : Nat
  consumed_at : Option Int
  consumption_location : Option String
deriving Repr, DecidableEq

/-- Embeds `consume_fulfillment` (order_repo.rs, lines 472-494): the
UPDATE sets `consumed_at = NOW()` and the location for EVERY row matching
the barcode — there is no `consumed_at IS NULL` guard — and `fetch_one`
fails only when no row matches.  Returns the `(order_id, order_item_id)`
of the matched row together with the updated table. -/
def consumeFulfillmentRepo (now : Int) (barcode location : String)
    (db : List FulfillmentRow) :
    Except Unit ((Nat × Nat) × List FulfillmentRow) :=
  match db.find? (fun r => r.barcode == barcode) with
  | none => .error ()
  | some r =>
    let db1 := db.map fun r0 =>
      if r0.barcode == barcode then
        { r0 with consumed_at := some now, consumption_location := some location }
      else r0
    .ok ((r.order_id, r.order_item_id), db1)

/-- Embeds `Fulfillment` (altis-order models.rs, lines 136-143). -/
structure Fulfillment where
  id : Nat
  order_item_id : Nat
  barcode_token : String
  is_consumed : Bool
  consumed_at : Option Int
deriving Repr, DecidableEq

/-- Embeds the in-memory `FulfillmentService::consume` (fulfillment.rs,
lines 38-49), which DOES refuse a second consumption: find the entry by
token, error if already consumed, otherwise mark it consumed. -/
def serviceConsume (now : Int) (barcode : String) (svc : List Fulfillment) :
    Except Unit (List Fulfillment) :=
  match svc.find? (fun f => f.barcode_token == barcode) with
  | none => .error ()
  | some f =>
    if f.is_consumed then .error ()
    else
      .ok (updateFirst (fun f0 => f0.barcode_token == barcode)
        (fun f0 => { f0 with is_consumed := true, consumed_at := some now }) svc)

/-! ## altis-api/src/middleware/resiliency.rs -/

/-- Embeds `CircuitState` (resiliency.rs, lines 12-17); the Rust `Open`
variant is spelled `cbOpen` here. -/
inductive CircuitState
  | closed
  | cbOpen
  | halfOpen
deriving Repr, DecidableEq

/-- Embeds `CircuitBreaker` (resiliency.rs, lines 19-26); `Instant`s are
integer clock readings in the same unit as `reset_timeout`. -/
structure CircuitBreaker where
  state : CircuitState
  failureCount : Nat
  failureThreshold : Nat
  resetTimeout : Nat
  lastFailure : Option Nat
deriving Repr, DecidableEq

/-- Embeds `CircuitBreaker::check` (resiliency.rs, lines 40-61): CLOSED
and HALF_OPEN permit the call; OPEN permits it and moves to HALF_OPEN only
when STRICTLY more than `reset_timeout` has elapsed since the last
failure (`instant.elapsed() > self.reset_timeout`), otherwise rejects. -/
def CircuitBreaker.check (cb : CircuitBreaker) (now : Nat) :
    Bool × CircuitBreaker :=
  match cb.state with
  | .closed => (true, cb)
  | .cbOpen =>
    match cb.lastFailure with
    | some t =>
      if now - t > cb.resetTimeout then (true, { cb with state := .halfOpen })
      else (false, cb)
    | none => (false, cb)
  | .halfOpen => (true, cb)

/-- Embeds `CircuitBreaker::record_success` (resiliency.rs, lines
63-72). -/
def CircuitBreaker.recordSuccess (cb : CircuitBreaker) : CircuitBreaker :=
  match cb.state with
  | .halfOpen => { cb with state := .closed, failureCount := 0 }
  | .closed => { cb with failureCount := 0 }
  | .cbOpen => cb

/-- Embeds `CircuitBreaker::record_failure` (resiliency.rs, lines 74-84):
always increment the counter; trip to OPEN (stamping the failure time)
when the new count reaches the threshold or the breaker was probing. -/
def CircuitBreaker.recordFailure (cb : CircuitBreaker) (now : Nat) :
    CircuitBreaker :=
  let count := cb.failureCount + 1
  if count ≥ cb.failureThreshold ∨ cb.state = CircuitState.halfOpen then
    { cb with failureCount := count, state := .cbOpen, lastFailure := some now }
  else
    { cb with failureCount := count }

/-- Result of one pass through `circuit_breaker_middleware` for a guarded
path: the HTTP status returned, whether the inner handler (the guarded
dependency) was invoked, and the breaker afterwards. -/
structure MiddlewareResult where
  status : Nat
  dependencyInvoked : Bool
  breaker : CircuitBreaker
deriving Repr, DecidableEq

/-- Embeds `circuit_breaker_middleware` (resiliency.rs, lines 87-122) for
a request routed to a breaker: a failed `check` short-circuits to 503
without running the inner handler; otherwise the handler runs and a
5xx-class response records a failure, anything else a success. -/
def circuitBreakerMiddleware (cb : CircuitBreaker) (now : Nat)
    (depStatus : Nat) : MiddlewareResult :=
  match cb.check now with
  | (false, cb1) => ⟨503, false, cb1⟩
  | (true, cb1) =>
    let cb2 :=
      if 500 ≤ depStatus ∧ depStatus ≤ 599 then cb1.recordFailure now
      else cb1.recordSuccess
    ⟨depStatus, true, cb2⟩

/-! ## Concrete inputs used by the counterexamples, code-bug evaluations
and witnesses -/

/-- An ACTIVE order item with quantity 2 — exercises the missing quantity
factor. -/
def itemQty2 : OrderItem := ⟨1, none, "MEAL", 5, 2, .active⟩

/-- Order obtained by adding `itemQty2` to a fresh order. -/
def orderC1 : Order := (Order.new 0).addItem itemQty2

/-- Two flight offer items referencing products 101 and 102. -/
def flightItem101 : OfferItem := ⟨1, some 101, "Flight", 20000, 1⟩

/-- Second flight item, product 102. -/
def flightItem102 : OfferItem := ⟨2, some 102, "Flight", 18000, 1⟩

/-- An unexpired ACTIVE offer holding both flights. -/
def offerTwoFlights : Offer := ⟨10, [flightItem101, flightItem102], 38000, .active, 1000⟩

/-- Cache with one seat left on flight 101 and none on 102. -/
def cacheOneZero : Cache := ⟨[(101, 1), (102, 0)]⟩

/-- A CANCELLED offer that is not yet past expiry. -/
def offerCancelledFresh : Offer := ⟨11, [⟨3, some 103, "Flight", 20000, 1⟩], 20000, .cancelled, 100⟩

/-- Cache with one seat left on flight 103. -/
def cacheFlight103 : Cache := ⟨[(103, 1)]⟩

/-- An ACTIVE offer whose expiry equals the current instant (boundary). -/
def offerAtBoundary : Offer := ⟨12, [], 0, .active, 0⟩

/-- An API order in PROPOSED holding one flight item on product 101. -/
def apiOrderOneFlight : ApiOrder := ⟨5, "PROPOSED", [⟨50, some 101, "Flight", 20000⟩], 20000, none⟩

/-- Cache where flight 101 has zero availability (held by this order). -/
def cacheHeld : Cache := ⟨[(101, 0)]⟩

/-- An API order already CANCELLED. -/
def apiOrderCancelled : ApiOrder := ⟨6, "CANCELLED", [⟨60, some 101, "Flight", 20000⟩], 20000, none⟩

/-- A fulfillment table whose single row was already consumed at time 10
from GATE-1. -/
def dbConsumed : List FulfillmentRow := [⟨"ALTIS-1-2", 1, 2, some 10, some "GATE-1"⟩]

/-- The in-memory service state with the same token already consumed. -/
def svcConsumed : List Fulfillment := [⟨9, 2, "ALTIS-1-2", true, some 10⟩]

/-- An expired ACTIVE offer sitting in the expiry manager. -/
def offerExpiredActive : Offer := ⟨1, [], 0, .active, 5⟩

/-- Expiry manager holding only `offerExpiredActive`. -/
def mgrOneExpired : ExpiryManager := ⟨[(1, offerExpiredActive)]⟩

/-- A tripped payment breaker: OPEN, 3 failures at threshold 3, reset
timeout 30, last failure at instant 0. -/
def trippedBreaker : CircuitBreaker := ⟨.cbOpen, 3, 3, 30, some 0⟩

/-! ## Helper lemmas for the order-total invariant (claim C1) -/

/-- Appending an item changes the active total by its price exactly when
the item is ACTIVE. -/
theorem calculateActiveTotal_addItem (o : Order) (item : OrderItem) :
    (o.addItem item).calculateActiveTotal =
      o.calculateActiveTotal +
        (if item.status = OrderItemStatus.active then item.price_nuc else 0) := by
  by_cases h : item.status = OrderItemStatus.active <;>
    simp [Order.addItem, Order.calculateActiveTotal, List.filter_append, h]

/-- `Order.addItem` preserves the stored-total invariant for ACTIVE
items. -/
theorem addItem_totalInvariant (o : Order) (item : OrderItem)
    (ho : totalInvariant o) (hi : item.status = OrderItemStatus.active) :
    totalInvariant (o.addItem item) := by
  unfold totalInvariant at ho ⊢
  rw [calculateActiveTotal_addItem, if_pos hi, ← ho]
  rfl

/-- A successful `refund_item` re-establishes the invariant outright,
because it recomputes the stored total from the active items. -/
theorem refundItem_totalInvariant (o : Order) (item_id : Nat) (o1 : Order)
    (h : ChangeHandler.refundItem o item_id = .ok o1) : totalInvariant o1 := by
  unfold ChangeHandler.refundItem at h
  split at h
  · simp at h
  · split at h
    · simp at h
    · injection h with h1
      subst h1
      unfold totalInvariant Order.calculateActiveTotal
      rfl

/-- `change_flight` preserves the invariant in all of its exit paths. -/
theorem changeFlightRun_totalInvariant (o : Order) (old_id : Nat)
    (ni : OrderItem) (ho : totalInvariant o)
    (hi : ni.status = OrderItemStatus.active) :
    totalInvariant (ChangeHandler.changeFlightRun o old_id ni).1 := by
  unfold ChangeHandler.changeFlightRun
  split
  · exact ho
  next o1 heq =>
    have h1 := refundItem_totalInvariant o old_id o1 heq
    split
    · exact h1
    next o2 heq2 =>
      unfold ChangeHandler.addItem at heq2
      split at heq2
      · simp at heq2
      · injection heq2 with h3
        subst h3
        exact addItem_totalInvariant o1 ni h1 hi

/-- One modification step preserves the invariant when introduced items
are fresh (ACTIVE). -/
theorem applyOp_totalInvariant (o : Order) (op : OrderOp)
    (ho : totalInvariant o) (hf : op.freshItem = true) :
    totalInvariant (applyOp o op) := by
  cases op with
  | add item =>
    simp only [OrderOp.freshItem, beq_iff_eq] at hf
    exact addItem_totalInvariant o item ho hf
  | refund item_id =>
    simp only [applyOp]
    split
    next o1 heq => exact refundItem_totalInvariant o item_id o1 heq
    next => exact ho
  | changeFlight old_id ni =>
    simp only [OrderOp.freshItem, beq_iff_eq] at hf
    exact changeFlightRun_totalInvariant o old_id ni ho hf

/-- Sequences of modification steps preserve the invariant. -/
theorem applyOps_totalInvariant (ops : List OrderOp) (o : Order)
    (ho : totalInvariant o) (hf : ops.all OrderOp.freshItem = true) :
    totalInvariant (applyOps o ops) := by
  induction ops generalizing o with
  | nil => exact ho
  | cons op rest ih =>
    simp only [List.all_cons, Bool.and_eq_true] at hf
    exact ih (applyOp o op) (applyOp_totalInvariant o op ho hf.1) hf.2

/-! ## Claim theorems -/

/-- Claim C1, counterexample: an order holding one ACTIVE item of price 5
and quantity 2 stores `total_nuc = 5`, while the claimed
Σ price × quantity over active items is 10 — `add_item` raised the total
by the price alone. -/
theorem C1_counterexample :
    orderC1.total_nuc = 5 ∧ specActiveTotalPriceTimesQty orderC1 = 10 ∧
      orderC1.total_nuc ≠ specActiveTotalPriceTimesQty orderC1 := by
  decide

/-- Claim C1 (amended): after any sequence of `add_item`, `refund_item`
and `change_flight` operations whose introduced items are fresh (ACTIVE),
the stored `total_nuc` equals the sum over ACTIVE items of `price_nuc` —
the quantity field is not multiplied in — and adding an item to an order
or an offer increases the stored total by exactly `price_nuc`. -/
theorem C1_total_tracks_active_price_sum :
    (∀ (ops : List OrderOp) (o : Order), totalInvariant o →
        ops.all OrderOp.freshItem = true → totalInvariant (applyOps o ops)) ∧
    (∀ (o : Order) (item : OrderItem),
        (o.addItem item).total_nuc = o.total_nuc + item.price_nuc) ∧
    (∀ (ofr : Offer) (item : OfferItem),
        (ofr.addItem item).total_nuc = ofr.total_nuc + item.price_nuc) :=
  ⟨fun ops o ho hf => applyOps_totalInvariant ops o ho hf,
   fun _ _ => rfl, fun _ _ => rfl⟩

/-- Witness for C1 on a concrete three-step modification sequence. -/
theorem C1_total_tracks_active_price_sum_witness :
    totalInvariant (applyOps (Order.new 0)
      [OrderOp.add itemQty2, OrderOp.refund 1,
        OrderOp.changeFlight 1 ⟨2, none, "FLIGHT", 30, 1, .active⟩]) :=
  C1_total_tracks_active_price_sum.1 _ _ rfl rfl

/-- Claim C2, code evaluated at the failing input: accepting an unexpired
offer holding flights 101 (availability 1) and 102 (availability 0) fails
with 409, but the conflict path leaves flight 101 decremented to 0 — the
`set(pid, 0)` "rollback" touches only the flight whose decrement went
negative, and no prior decrement is incremented back. -/
theorem C2_conflict_keeps_prior_decrements :
    cacheOneZero.get 101 = some 1 ∧
    acceptOffer 0 offerTwoFlights cacheOneZero =
      ⟨.error 409, ⟨[(101, 0), (102, 0)]⟩, false⟩ := by
  decide

/-- Claim C3, code evaluated at the failing input: in the synchronous pay
flow a FAILED payment outcome returns HTTP 402 with the order left in
PAYMENT_PENDING and the availability cache untouched (flight 101 stays
at 0) — no transition to CANCELLED and no inventory release happen on
this path. -/
theorem C3_failed_payment_leaves_pending :
    payOrder 0 apiOrderOneFlight (.ok PaymentStatus.failed) cacheHeld =
      ⟨.error 402, "PAYMENT_PENDING", cacheHeld, false⟩ ∧
    cacheHeld.get 101 = some 0 := by
  decide

/-- Claim C4, code evaluated at the failing input: the store-level
`consume_fulfillment` re-consumes an already consumed token — the UPDATE
carries no `consumed_at IS NULL` guard, so the second consume succeeds,
returns the ids again, and overwrites the recorded timestamp (10 → 20)
and location; the in-memory `FulfillmentService::consume` on the same
state rejects the second consumption, as the claim requires. -/
theorem C4_repo_allows_second_consumption :
    consumeFulfillmentRepo 20 "ALTIS-1-2" "GATE-2" dbConsumed =
      .ok ((1, 2), [⟨"ALTIS-1-2", 1, 2, some 20, some "GATE-2"⟩]) ∧
    serviceConsume 20 "ALTIS-1-2" svcConsumed = .error () := by
  decide

/-- Claim C5, counterexample: a breaker that tripped at instant 0 with
reset timeout 30 still rejects at instant 30 — `reset_timeout` has
elapsed, yet `check` returns false and the state stays OPEN, because the
code demands STRICTLY more than `reset_timeout`. -/
theorem C5_counterexample :
    30 - 0 ≥ trippedBreaker.resetTimeout ∧
    trippedBreaker.check 30 = (false, trippedBreaker) := by
  decide

/-- Claim C5 (amended): reaching the failure threshold trips the breaker
to OPEN; while OPEN and at most `reset_timeout` has elapsed since the last
failure, `check` rejects and the middleware answers 503 without invoking
the guarded dependency; once STRICTLY more than `reset_timeout` has
elapsed, `check` moves the breaker to HALF_OPEN and permits the probe. -/
theorem C5_breaker_rejects_and_reopens :
    (∀ (cb : CircuitBreaker) (now : Nat),
      (cb.recordFailure now).failureCount ≥ cb.failureThreshold →
      (cb.recordFailure now).state = CircuitState.cbOpen) ∧
    (∀ (cb : CircuitBreaker) (now t depStatus : Nat),
      cb.state = CircuitState.cbOpen → cb.lastFailure = some t →
      now - t ≤ cb.resetTimeout →
      cb.check now = (false, cb) ∧
      circuitBreakerMiddleware cb now depStatus = ⟨503, false, cb⟩) ∧
    (∀ (cb : CircuitBreaker) (now t : Nat),
      cb.state = CircuitState.cbOpen → cb.lastFailure = some t →
      now - t > cb.resetTimeout →
      cb.check now = (true, { cb with state := CircuitState.halfOpen })) := by
  refine ⟨?_, ?_, ?_⟩
  · intro cb now h
    by_cases hc : cb.failureCount + 1 ≥ cb.failureThreshold ∨
        cb.state = CircuitState.halfOpen
    · simp [CircuitBreaker.recordFailure, hc]
    · simp only [CircuitBreaker.recordFailure, if_neg hc] at h
      exact absurd (Or.inl h) hc
  · rintro ⟨st, fc, th, rt, lf⟩ now t depStatus hst hlf hle
    dsimp only at hst hlf
    subst hst; subst hlf
    have hck : CircuitBreaker.check ⟨.cbOpen, fc, th, rt, some t⟩ now =
        (false, ⟨.cbOpen, fc, th, rt, some t⟩) := by
      simp only [CircuitBreaker.check]
      rw [if_neg (Nat.not_lt.mpr hle)]
    exact ⟨hck, by simp [circuitBreakerMiddleware, hck]⟩
  · rintro ⟨st, fc, th, rt, lf⟩ now t hst hlf hgt
    dsimp only at hst hlf
    subst hst; subst hlf
    simp only [CircuitBreaker.check]
    rw [if_pos hgt]

/-- Witness for C5 on the tripped payment breaker: a further failure keeps
it OPEN, it rejects at instant 15 (503, dependency not invoked), and it
half-opens at instant 31. -/
theorem C5_breaker_rejects_and_reopens_witness :
    (trippedBreaker.recordFailure 40).state = CircuitState.cbOpen ∧
    (trippedBreaker.check 15 = (false, trippedBreaker) ∧
      circuitBreakerMiddleware trippedBreaker 15 200 =
        ⟨503, false, trippedBreaker⟩) ∧
    trippedBreaker.check 31 =
      (true, { trippedBreaker with state := CircuitState.halfOpen }) :=
  ⟨C5_breaker_rejects_and_reopens.1 trippedBreaker 40 (by decide),
   C5_breaker_rejects_and_reopens.2.1 trippedBreaker 15 0 200 rfl rfl (by decide),
   C5_breaker_rejects_and_reopens.2.2 trippedBreaker 31 0 rfl rfl (by decide)⟩

/-- Claim C6, counterexample: `accept_offer` checks only `is_expired`,
never the status, and expiry is strict. A CANCELLED (hence not active)
offer that is not past expiry is accepted — flight 103 is decremented and
the order is created — and an ACTIVE offer with `expires_at = now`
(so `expires_at ≤ now`) is also accepted instead of answering 410. -/
theorem C6_counterexample :
    offerCancelledFresh.isActive 0 = false ∧
    acceptOffer 0 offerCancelledFresh cacheFlight103 =
      ⟨.ok 11, ⟨[(103, 0)]⟩, true⟩ ∧
    offerAtBoundary.expires_at ≤ 0 ∧
    acceptOffer 0 offerAtBoundary ⟨[]⟩ = ⟨.ok 12, ⟨[]⟩, true⟩ := by
  decide

/-- Claim C6 (amended): accepting an offer STRICTLY past its expiry
(`expires_at < now`) fails with 410 Gone, with the availability cache
unchanged and no order created; the ACTIVE-status half of "active" is not
enforced by `accept_offer`, and at `now = expires_at` acceptance
proceeds. -/
theorem C6_expired_offer_rejected :
    ∀ (now : Int) (offer : Offer) (c : Cache), offer.expires_at < now →
      acceptOffer now offer c = ⟨.error 410, c, false⟩ := by
  intro now offer c h
  have hexp : offer.isExpired now = true := by
    simp [Offer.isExpired]
    exact h
  simp [acceptOffer, hexp]

/-- Witness for C6 on a concretely expired offer. -/
theorem C6_expired_offer_rejected_witness :
    acceptOffer 10 offerExpiredActive cacheFlight103 =
      ⟨.error 410, cacheFlight103, false⟩ :=
  C6_expired_offer_rejected 10 offerExpiredActive cacheFlight103 (by decide)

/-- Claim C7, code evaluated at the failing input: with the default
configuration (minor-unit increment 1) and all multipliers equal to 1.0,
`apply_continuous_adjustment` of base price 10000 returns 10001 rather
than 10000: the final rounding step computes `remainder = 10000 % 1 = 0`
and `0 >= 1 / 2 = 0`, so it adds a full increment.  The claim (and the
code's own "Round to nearest cent" comment) requires the identity,
10000. -/
theorem C7_increment_one_rounding_adds_one :
    applyContinuousAdjustment PricingConfig.default 10000
      ⟨false, none, some 1, some 1⟩ = 10001 := by
  have h : ratTruncToInt (((10000 : Int) : ℚ) * (1 * 1)) = (10000 : Int) := by
    norm_num [ratTruncToInt]
  simp only [applyContinuousAdjustment, PricingConfig.default, Option.getD,
    Bool.not_true, Bool.false_eq_true, if_false, h]
  decide

/-- Claim C8, counterexample: sweeping a store holding one ACTIVE offer
with `expires_at = 5` at `now = 10` DELETES the offer (the store becomes
empty, the lookup finds nothing) instead of keeping it retrievable with
status EXPIRED. -/
theorem C8_counterexample :
    (mgrOneExpired.cleanupExpired 10).1 = 1 ∧
    (mgrOneExpired.cleanupExpired 10).2.offers = [] ∧
    (mgrOneExpired.cleanupExpired 10).2.offers.lookup 1 = none := by
  decide

/-- Claim C8 (amended): the expiry sweep REMOVES from the store exactly
those offers whose status is ACTIVE and whose `expires_at ≤ now`; every
other stored offer — other statuses, and active offers not yet past
expiry — survives unchanged. -/
theorem C8_sweep_removes_expired_active :
    ∀ (m : ExpiryManager) (now : Int) (id : Nat) (o : Offer),
      (id, o) ∈ (m.cleanupExpired now).2.offers ↔
        (id, o) ∈ m.offers ∧
          ¬(o.status = OfferStatus.active ∧ o.expires_at ≤ now) := by
  intro m now id o
  simp only [ExpiryManager.cleanupExpired, List.mem_filter, Bool.not_eq_true',
    Bool.and_eq_false_iff, decide_eq_false_iff_not, beq_eq_false_iff_ne]
  constructor
  · rintro ⟨hm, h⟩
    refine ⟨hm, ?_⟩
    rintro ⟨hs, he⟩
    rcases h with h | h
    · exact h he
    · exact h hs
  · rintro ⟨hm, h⟩
    refine ⟨hm, ?_⟩
    by_cases he : o.expires_at ≤ now
    · exact Or.inr fun hs => h ⟨hs, he⟩
    · exact Or.inl he

/-- Claim C9, counterexample: requesting Cancel on an order that is
already CANCELLED is reported as success, not rejected: the manager
performs the Cancelled → Cancelled "transition" and the API handler
answers 204 without touching the stored order or the inventory — a silent
no-op. -/
theorem C9_counterexample :
    managerStep OrderStatus.cancelled OrderEvent.cancel =
      .ok OrderStatus.cancelled ∧
    apiCancelOrder apiOrderCancelled cacheHeld =
      (204, apiOrderCancelled, cacheHeld) := by
  decide

/-- Claim C9 (amended): the manager's transition handling is total — for
every (status, event) pair it either performs the event's named transition
or rejects with an invalid-transition error naming the source status and
the target state — but Cancel is accepted from every status outside
FULFILLED/ARCHIVED, including CANCELLED itself, and the API cancel
endpoint answers 204 for an already-cancelled order without any state
change. -/
theorem C9_transitions_total_with_idempotent_cancel :
    (∀ (s : OrderStatus) (e : OrderEvent),
      managerStep s e =
        if managerAccepts s e then .ok e.target
        else .error (s.debugName, e.targetName)) ∧
    (∀ (order : ApiOrder) (c : Cache), order.status = "CANCELLED" →
      apiCancelOrder order c = (204, order, c)) := by
  constructor
  · intro s e
    cases e <;> cases s <;> rfl
  · intro order c h
    simp [apiCancelOrder, h]

/-- Witness for C9 on a concrete already-cancelled order. -/
theorem C9_transitions_total_witness :
    apiCancelOrder apiOrderCancelled cacheFlight103 =
      (204, apiOrderCancelled, cacheFlight103) :=
  C9_transitions_total_with_idempotent_cancel.2 apiOrderCancelled
    cacheFlight103 rfl

/-- Claim C10: for zero total capacity, `calculate_demand_multiplier`
returns exactly 1.0 and `get_utilization` returns exactly 0.0, for every
configuration, inventory level and stored manager — the divisions by
capacity are guarded. -/
theorem C10_zero_capacity_guarded :
    (∀ (cfg : PricingConfig) (avail : Int),
      calculateDemandMultiplier cfg avail 0 = 1) ∧
    (∀ (m : InventoryManager) (pid : Nat) (item : InventoryItem),
      m.inventory.lookup pid = some item → item.total_capacity = 0 →
      m.getUtilization pid = some 0) := by
  constructor
  · intro cfg avail
    simp [calculateDemandMultiplier]
  · intro m pid item hlook hcap
    simp [InventoryManager.getUtilization, hlook, hcap]

/-- Witness for C10 at a concrete manager holding one zero-capacity
item. -/
theorem C10_zero_capacity_guarded_witness :
    (InventoryManager.mk [(7, ⟨7, 0, 0, 0⟩)]).getUtilization 7 = some 0 :=
  C10_zero_capacity_guarded.2 (InventoryManager.mk [(7, ⟨7, 0, 0, 0⟩)]) 7
    ⟨7, 0, 0, 0⟩ (by decide) rfl

end Altis
